import Mathlib

/-!
Verification of the Criteria Normalization & Disambiguation Engine of the
company-search backend: a shallow embedding of the size-expression parser
(`services/size_matcher.py`), the refinement controller
(`services/refinement_service.py`), the location matcher
(`services/location_matcher.py`), the sector matcher (`sector_matcher.py`)
and the extraction normalizer (`services/extraction_service.py`), together
with theorems settling the frozen claims about them.

Strings are embedded as Lean `String`/`List Char`; Python floats are
embedded as `ℚ` (all scores are exact small rationals, and every claim
compares scores away from representation boundaries); Python `None`/`inf`
become `Option`.
-/

/-- Python `str.strip()` whitespace set (the ASCII whitespace characters;
the non-ASCII Unicode whitespace does not occur in the vocabularies or
expressions handled by this engine). -/
def pyWhitespaceChar (c : Char) : Bool :=
  c = ' ' || c = '\t' || c = '\n' || c = '\r' || c = '\x0b' || c = '\x0c'

/-- Strip leading and trailing whitespace from a character list. -/
def pyStripChars (l : List Char) : List Char :=
  ((l.dropWhile pyWhitespaceChar).reverse.dropWhile pyWhitespaceChar).reverse

/-- Python `str.strip()`. -/
def pyStrip (s : String) : String := ⟨pyStripChars s.data⟩

/-- Python `str.upper()` restricted to ASCII and the Latin-1 letters that
occur in this engine's data ('à' … 'þ' except '÷' map down by 0x20). -/
def pyUpperChar (c : Char) : Char :=
  if 'a' ≤ c ∧ c ≤ 'z' then Char.ofNat (c.toNat - 32)
  else if 'à' ≤ c ∧ c ≤ 'þ' ∧ c ≠ '÷' then Char.ofNat (c.toNat - 32)
  else c

/-- Python `str.upper()` (character-wise, ASCII + Latin-1 range). -/
def pyUpper (s : String) : String := ⟨s.data.map pyUpperChar⟩

/-- Python `str.lower()` restricted to ASCII and the Latin-1 letters
('À' … 'Þ' except '×' map up by 0x20). -/
def pyLowerChar (c : Char) : Char :=
  if 'A' ≤ c ∧ c ≤ 'Z' then Char.ofNat (c.toNat + 32)
  else if 'À' ≤ c ∧ c ≤ 'Þ' ∧ c ≠ '×' then Char.ofNat (c.toNat + 32)
  else c

/-- Python `str.lower()` (character-wise, ASCII + Latin-1 range). -/
def pyLower (s : String) : String := ⟨s.data.map pyLowerChar⟩

/-- Value of a digit run, as in Python `int(...)` on a `\d+` regex group. -/
def digitsVal (l : List Char) : ℕ := l.foldl (fun a c => 10 * a + (c.toNat - 48)) 0

/-- Python truthiness of an optional string (`None` and `""` are falsy). -/
def pyTruthy : Option String → Bool
  | none => false
  | some s => !decide (s = "")

/-- Prefix test on character lists. -/
def charsStartWith : List Char → List Char → Bool
  | [], _ => true
  | _ :: _, [] => false
  | a :: as, b :: bs => decide (a = b) && charsStartWith as bs

/-- Python `str.startswith`. -/
def strStartsWith (s pre : String) : Bool := charsStartWith pre.data s.data

/-- Python `str.endswith`. -/
def strEndsWith (s suffix : String) : Bool :=
  charsStartWith suffix.data.reverse s.data.reverse

/-- Drop the last `n` characters (Python `w[:-n]`). -/
def strDropRight (s : String) (n : ℕ) : String := ⟨s.data.take (s.data.length - n)⟩

/-- Split a character list at every separator character, keeping empty
pieces (Python `str.split(sep)`; callers that model Python's bare
`str.split()` filter the empty pieces away). -/
def splitChars (p : Char → Bool) : List Char → List (List Char)
  | [] => [[]]
  | c :: cs =>
    if p c then [] :: splitChars p cs
    else
      match splitChars p cs with
      | [] => [[c]]
      | g :: gs => (c :: g) :: gs

/-- Split a string at every separator character. -/
def strSplit (p : Char → Bool) (s : String) : List String :=
  (splitChars p s.data).map (fun l => ⟨l⟩)

/-- Join strings with a separator (Python `sep.join(...)`). -/
def joinWithSep (sep : String) : List String → String
  | [] => ""
  | [x] => x
  | x :: xs => x ++ sep ++ joinWithSep sep xs

/-!  ## Size-expression parser (`services/size_matcher.py`)  -/

/-- `INSEE_RANGES` from `size_matcher.py`: `(label, range_min, range_max)`;
`none` as a maximum stands for `float('inf')`. -/
def INSEE_RANGES : List (String × ℤ × Option ℤ) :=
  [ ("0 salarie", 0, some 0),
    ("1 ou 2 salaries", 1, some 2),
    ("3 a 5 salaries", 3, some 5),
    ("6 a 9 salaries", 6, some 9),
    ("10 a 19 salaries", 10, some 19),
    ("20 a 49 salaries", 20, some 49),
    ("50 a 99 salaries", 50, some 99),
    ("100 a 199 salaries", 100, some 199),
    ("200 a 249 salaries", 200, some 249),
    ("250 a 499 salaries", 250, some 499),
    ("500 a 999 salaries", 500, some 999),
    ("1 000 a 1 999 salaries", 1000, some 1999),
    ("2 000 a 4 999 salaries", 2000, some 4999),
    ("5 000 a 9 999 salaries", 5000, some 9999),
    ("10 000 salaries et plus", 10000, none) ]

/-- `ACRONYM_RANGES` from `size_matcher.py` (insertion order preserved). -/
def ACRONYM_RANGES : List (String × List String) :=
  [ ("MIC", ["0 salarie", "1 ou 2 salaries", "3 a 5 salaries", "6 a 9 salaries"]),
    ("TPE", ["0 salarie", "1 ou 2 salaries", "3 a 5 salaries", "6 a 9 salaries"]),
    ("PME", ["10 a 19 salaries", "20 a 49 salaries", "50 a 99 salaries",
             "100 a 199 salaries", "200 a 249 salaries"]),
    ("ETI", ["250 a 499 salaries", "500 a 999 salaries", "1 000 a 1 999 salaries",
             "2 000 a 4 999 salaries"]),
    ("GE", ["5 000 a 9 999 salaries", "10 000 salaries et plus"]) ]

/-- `ACRONYM_BOUNDARIES` from `size_matcher.py`; `none` stands for `inf`. -/
def ACRONYM_BOUNDARIES : List (String × ℤ × Option ℤ) :=
  [ ("MIC", 0, some 9),
    ("TPE", 0, some 9),
    ("PME", 10, some 249),
    ("ETI", 250, some 4999),
    ("GE", 5000, none) ]

/-- `range_max >= min_val` with `range_max` possibly infinite. -/
def upperGe (rmax : Option ℤ) (minv : ℤ) : Bool :=
  match rmax with
  | none => true
  | some m => decide (minv ≤ m)

/-- `range_max <= max_val` with both sides possibly infinite. -/
def upperLe (rmax maxv : Option ℤ) : Bool :=
  match maxv with
  | none => true
  | some mx =>
    match rmax with
    | none => false
    | some m => decide (m ≤ mx)

/-- `_get_ranges_for_bounds` from `size_matcher.py`: keep every INSEE range
whose `range_max` satisfies `range_max >= min_val and range_max <= max_val`. -/
def getRangesForBounds (minv : ℤ) (maxv : Option ℤ) : List String :=
  (INSEE_RANGES.filter (fun r => upperGe r.2.2 minv && upperLe r.2.2 maxv)).map (·.1)

/-- `_detect_acronym` from `size_matcher.py`: first acronym whose boundary
pair equals the given bounds. -/
def detectAcronym (minv : ℤ) (maxv : Option ℤ) : Option String :=
  (ACRONYM_BOUNDARIES.find? (fun a => decide (a.2.1 = minv) && decide (a.2.2 = maxv))).map (·.1)

/-- `SizeMatchResult` dataclass from `size_matcher.py`; `max_employees = none`
models the Python `None` stored for an unbounded maximum. -/
structure SizeMatchResult where
  tranches : List String
  acronyme : Option String
  original_expression : String
  min_employees : ℤ
  max_employees : Option ℤ
deriving DecidableEq, Repr

/-- Shared body of the three numeric branches of `parse_size_expression`:
compute the tranches for the bounds and return a result only when the
tranche list is non-empty (the `if tranches:` guard in the source). -/
def buildNumericResult (expression : String) (minv : ℤ) (maxv : Option ℤ) :
    Option SizeMatchResult :=
  if (getRangesForBounds minv maxv).isEmpty then none
  else some { tranches := getRangesForBounds minv maxv, acronyme := detectAcronym minv maxv,
              original_expression := expression,
              min_employees := minv, max_employees := maxv }

/-- Character class `[<>=]` of the comparison regexes. -/
def sizeOpChar (c : Char) : Bool := c = '<' || c = '>' || c = '='

/-- Character class `[<>=\d\s]` of the combined-expression regex. -/
def andClassChar (c : Char) : Bool := sizeOpChar c || c.isDigit || pyWhitespaceChar c

/-- Left-anchored match of `([<>=\d\s]+)\s*(?:AND|ET|&)\s*([<>=\d\s]+)` on the
(already upper-cased) expression.  Because the connector letters are outside
the `[<>=\d\s]` class, the first group is always the maximal class prefix
and the connector must start right after it.  After the connector, the
greedy `\s*` first swallows all whitespace; if no class character follows
it, the engine backtracks one position so that the second group matches a
single whitespace character (whitespace is inside the class) — so
`10 ET PLUS` matches with a whitespace-only second group, and only when
neither a class character nor any whitespace follows the connector does the
whole pattern fail.  Trailing input after the second group is ignored (the
pattern is unanchored on the right). -/
def andSplit (l : List Char) : Option (List Char × List Char) :=
  let g1 := l.takeWhile andClassChar
  let r := l.dropWhile andClassChar
  if g1.isEmpty then none
  else
    let afterConn : Option (List Char) :=
      if r.take 3 = ['A', 'N', 'D'] then some (r.drop 3)
      else if r.take 2 = ['E', 'T'] then some (r.drop 2)
      else if r.take 1 = ['&'] then some (r.drop 1)
      else none
    match afterConn with
    | none => none
    | some rest =>
      match ((rest.dropWhile pyWhitespaceChar).takeWhile andClassChar : List Char) with
      | [] =>
        match (rest.takeWhile pyWhitespaceChar).getLast? with
        | some wch => some (g1, [wch])
        | none => none
      | g2 => some (g1, g2)

/-- Left-anchored match of `([<>=]+)\s*(\d+)`: the operator run and the value
of the digit run (trailing input ignored). -/
def opNumAt (l : List Char) : Option (List Char × ℕ) :=
  let ops := l.takeWhile sizeOpChar
  let r := l.dropWhile sizeOpChar
  if ops.isEmpty then none
  else
    let ds := (r.dropWhile pyWhitespaceChar).takeWhile (·.isDigit)
    if ds.isEmpty then none else some (ops, digitsVal ds)

/-- Apply one side of a combined expression to the `(min_val, max_val)` pair,
as in `parse_size_expression`: `>` raises the minimum (`>=` keeps the value,
`>` adds one), `<` lowers the maximum, anything else leaves the pair alone. -/
def applyOpBound (ops : List Char) (v : ℤ) (b : ℤ × Option ℤ) : ℤ × Option ℤ :=
  if ops.contains '>' then ((if ops.contains '=' then v else v + 1), b.2)
  else if ops.contains '<' then (b.1, some (if ops.contains '=' then v else v - 1))
  else b

/-- Left-anchored match of `(\d+)\s*[-àa]\s*(\d+)` (the separator class with
`re.IGNORECASE` also accepts `À` and `A`, which is what `à`/`a` become after
upper-casing). -/
def rangeSplit (l : List Char) : Option (ℕ × ℕ) :=
  let d1 := l.takeWhile (·.isDigit)
  let r := l.dropWhile (·.isDigit)
  if d1.isEmpty then none
  else
    let r2 := r.dropWhile pyWhitespaceChar
    match r2 with
    | [] => none
    | sep :: rest =>
      if sep = '-' || sep = 'à' || sep = 'a' || sep = 'À' || sep = 'A' then
        let d2 := (rest.dropWhile pyWhitespaceChar).takeWhile (·.isDigit)
        if d2.isEmpty then none else some (digitsVal d1, digitsVal d2)
      else none

/-- Fully-anchored match of `^(\d+)$`. -/
def exactAll (l : List Char) : Option ℕ :=
  if !l.isEmpty && l.all (·.isDigit) then some (digitsVal l) else none

/-- Bare-integer branch of `parse_size_expression` (`^(\d+)$`, treated as the
exact range `[n, n]`; the source sets `acronyme=None` directly in this
branch). -/
def parseSizeExact (expression : String) (ec : List Char) : Option SizeMatchResult :=
  match exactAll ec with
  | some v =>
    if (getRangesForBounds (v : ℤ) (some (v : ℤ))).isEmpty then none
    else some { tranches := getRangesForBounds (v : ℤ) (some (v : ℤ)), acronyme := none,
                original_expression := expression,
                min_employees := (v : ℤ), max_employees := some (v : ℤ) }
  | none => none

/-- Comparison branch of `parse_size_expression` (`<n`, `<=n`, `>n`, `>=n`).
An operator run with neither `<` nor `>` returns `none` outright (the
source's `else: return None`), without falling through to the bare-integer
branch; an empty tranche list falls through to the bare-integer branch. -/
def parseSizeComp (expression : String) (ec : List Char) : Option SizeMatchResult :=
  match opNumAt ec with
  | some (ops, v) =>
    if ops.contains '<' then
      match buildNumericResult expression 0 (some (if ops.contains '=' then (v : ℤ) else (v : ℤ) - 1)) with
      | some r => some r
      | none => parseSizeExact expression ec
    else if ops.contains '>' then
      match buildNumericResult expression (if ops.contains '=' then (v : ℤ) else (v : ℤ) + 1) none with
      | some r => some r
      | none => parseSizeExact expression ec
    else none
  | none => parseSizeExact expression ec

/-- Combined branch of `parse_size_expression` (`OP n AND OP n`, also `ET`
and `&`): start from `(0, inf)` and apply each side's operator; a side whose
`([<>=]+)\s*(\d+)` submatch fails leaves the bounds untouched. -/
def parseSizeCombined (expression : String) (ec : List Char) : Option SizeMatchResult :=
  match andSplit ec with
  | some (g1, g2) =>
    let b0 : ℤ × Option ℤ := (0, none)
    let b1 := match opNumAt (pyStripChars g1) with
              | some (ops, v) => applyOpBound ops (v : ℤ) b0
              | none => b0
    let b2 := match opNumAt (pyStripChars g2) with
              | some (ops, v) => applyOpBound ops (v : ℤ) b1
              | none => b1
    buildNumericResult expression b2.1 b2.2
  | none => none

/-- Explicit-range branch of `parse_size_expression` (`n-n`, `n à n`). -/
def parseSizeRanged (expression : String) (ec : List Char) : Option SizeMatchResult :=
  match rangeSplit ec with
  | some (v1, v2) => buildNumericResult expression (v1 : ℤ) (some (v2 : ℤ))
  | none => none

/-- Numeric tail of `parse_size_expression`: combined, then range, then
comparison, then bare integer, falling through on an empty tranche list. -/
def parseSizeNumeric (expression : String) (ec : List Char) : Option SizeMatchResult :=
  match parseSizeCombined expression ec with
  | some r => some r
  | none =>
    match parseSizeRanged expression ec with
    | some r => some r
    | none => parseSizeComp expression ec

/-- `parse_size_expression` from `size_matcher.py`: acronym keyword first
(with its fixed tranche list and boundary pair), then the numeric forms;
unparseable input yields `none`. -/
def parseSizeExpression (expression : String) : Option SizeMatchResult :=
  if expression = "" then none
  else
    match ACRONYM_RANGES.find? (fun a => decide (a.1 = pyUpper (pyStrip expression))) with
    | some a =>
      match ACRONYM_BOUNDARIES.find? (fun b => decide (b.1 = a.1)) with
      | some b =>
        some { tranches := a.2, acronyme := some a.1, original_expression := expression,
               min_employees := b.2.1, max_employees := b.2.2 }
      | none => none
    | none => parseSizeNumeric expression (pyUpper (pyStrip expression)).data

/-!  ## Lemmas about the size parser  -/

theorem buildNumericResult_fields (e : String) (m : ℤ) (M : Option ℤ) (r : SizeMatchResult)
    (h : buildNumericResult e m M = some r) :
    r.tranches = getRangesForBounds r.min_employees r.max_employees ∧
    r.acronyme = detectAcronym r.min_employees r.max_employees := by
  unfold buildNumericResult at h
  split at h
  · exact absurd h (by simp)
  · simp only [Option.some.injEq] at h
    subst h
    exact ⟨rfl, rfl⟩

theorem detectAcronym_exact (v : ℤ) : detectAcronym v (some v) = none := by
  have hfind : ACRONYM_BOUNDARIES.find?
      (fun a => decide (a.2.1 = v) && decide (a.2.2 = some v)) = none := by
    rw [List.find?_eq_none]
    intro a ha
    fin_cases ha <;> simp <;> omega
  rw [detectAcronym, hfind]
  rfl

theorem parseSizeExact_fields (e : String) (ec : List Char) (r : SizeMatchResult)
    (h : parseSizeExact e ec = some r) :
    r.tranches = getRangesForBounds r.min_employees r.max_employees ∧
    r.acronyme = detectAcronym r.min_employees r.max_employees := by
  unfold parseSizeExact at h
  split at h
  · split at h
    · exact absurd h (by simp)
    · simp only [Option.some.injEq] at h
      subst h
      exact ⟨rfl, (detectAcronym_exact _).symm⟩
  · exact absurd h (by simp)

theorem parseSizeComp_fields (e : String) (ec : List Char) (r : SizeMatchResult)
    (h : parseSizeComp e ec = some r) :
    r.tranches = getRangesForBounds r.min_employees r.max_employees ∧
    r.acronyme = detectAcronym r.min_employees r.max_employees := by
  unfold parseSizeComp at h
  split at h
  · split at h
    · split at h
      · simp only [Option.some.injEq] at h
        subst h
        exact buildNumericResult_fields _ _ _ _ (by assumption)
      · exact parseSizeExact_fields _ _ _ h
    · split at h
      · split at h
        · simp only [Option.some.injEq] at h
          subst h
          exact buildNumericResult_fields _ _ _ _ (by assumption)
        · exact parseSizeExact_fields _ _ _ h
      · exact absurd h (by simp)
  · exact parseSizeExact_fields _ _ _ h

theorem parseSizeCombined_fields (e : String) (ec : List Char) (r : SizeMatchResult)
    (h : parseSizeCombined e ec = some r) :
    r.tranches = getRangesForBounds r.min_employees r.max_employees ∧
    r.acronyme = detectAcronym r.min_employees r.max_employees := by
  unfold parseSizeCombined at h
  split at h
  · exact buildNumericResult_fields _ _ _ _ h
  · exact absurd h (by simp)

theorem parseSizeRanged_fields (e : String) (ec : List Char) (r : SizeMatchResult)
    (h : parseSizeRanged e ec = some r) :
    r.tranches = getRangesForBounds r.min_employees r.max_employees ∧
    r.acronyme = detectAcronym r.min_employees r.max_employees := by
  unfold parseSizeRanged at h
  split at h
  · exact buildNumericResult_fields _ _ _ _ h
  · exact absurd h (by simp)

theorem parseSizeNumeric_fields (e : String) (ec : List Char) (r : SizeMatchResult)
    (h : parseSizeNumeric e ec = some r) :
    r.tranches = getRangesForBounds r.min_employees r.max_employees ∧
    r.acronyme = detectAcronym r.min_employees r.max_employees := by
  unfold parseSizeNumeric at h
  split at h
  · simp only [Option.some.injEq] at h
    subst h
    exact parseSizeCombined_fields _ _ _ (by assumption)
  · split at h
    · simp only [Option.some.injEq] at h
      subst h
      exact parseSizeRanged_fields _ _ _ (by assumption)
    · exact parseSizeComp_fields _ _ _ h

theorem detectAcronym_isSome (m : ℤ) (M : Option ℤ) :
    (detectAcronym m M).isSome = true ↔ (m, M) ∈ ACRONYM_BOUNDARIES.map Prod.snd := by
  rw [detectAcronym, Option.isSome_map', List.find?_isSome]
  simp only [List.mem_map, Bool.and_eq_true, decide_eq_true_eq]
  constructor
  · rintro ⟨a, ha, h1, h2⟩
    exact ⟨a, ha, by rw [Prod.ext_iff]; exact ⟨h1, h2⟩⟩
  · rintro ⟨a, ha, hsnd⟩
    rw [Prod.ext_iff] at hsnd
    exact ⟨a, ha, hsnd.1, hsnd.2⟩

/-!  ## Claims C6, C7, C10 (size parser)  -/

/-- C6: `parse_size_expression("PME")` and
`parse_size_expression(">=10 AND <=249")` both succeed and produce the same
tranche list and the same acronym class (`PME`). -/
theorem c6_pme_equals_bounds :
    (parseSizeExpression "PME").isSome = true ∧
    (parseSizeExpression ">=10 AND <=249").isSome = true ∧
    (parseSizeExpression "PME").map (fun r => (r.tranches, r.acronyme)) =
      (parseSizeExpression ">=10 AND <=249").map (fun r => (r.tranches, r.acronyme)) ∧
    (parseSizeExpression "PME").map (fun r => r.acronyme) = some (some "PME") := by
  refine ⟨by decide, by decide, by decide, by decide⟩

/-- C7: every numeric form of `parse_size_expression` (combined, range,
comparison, bare integer — i.e. every successful parse that is not the
acronym-keyword branch) returns exactly the INSEE tranches whose upper
bound lies within the resolved `[min, max]` bounds (so a lower-bound-only
query admits tranches whose lower bound is below the minimum), and its
acronym class is set exactly when the bound pair equals one of the fixed
acronym boundary pairs. -/
theorem c7_numeric_bracket_rule (expr : String) (r : SizeMatchResult)
    (hp : parseSizeExpression expr = some r)
    (hna : ACRONYM_RANGES.find? (fun a => decide (a.1 = pyUpper (pyStrip expr))) = none) :
    r.tranches = (INSEE_RANGES.filter
        (fun t => upperGe t.2.2 r.min_employees && upperLe t.2.2 r.max_employees)).map (·.1) ∧
    r.acronyme = detectAcronym r.min_employees r.max_employees ∧
    ((r.acronyme.isSome = true) ↔
      (r.min_employees, r.max_employees) ∈ ACRONYM_BOUNDARIES.map Prod.snd) := by
  unfold parseSizeExpression at hp
  split at hp
  · exact absurd hp (by simp)
  · split at hp
    · next a heq =>
      rw [hna] at heq
      exact absurd heq (by simp)
    · have h := parseSizeNumeric_fields _ _ _ hp
      refine ⟨h.1, h.2, ?_⟩
      rw [h.2]
      exact detectAcronym_isSome _ _

/-- Concrete numeric result of `parse_size_expression(">10")`, used to
witness C7: bounds `[11, inf)`, every tranche with upper bound at least 11
(including `10 a 19 salaries`, whose lower bound is below the minimum). -/
def c7WitnessResult : SizeMatchResult :=
  { tranches := ["10 a 19 salaries", "20 a 49 salaries", "50 a 99 salaries",
                 "100 a 199 salaries", "200 a 249 salaries", "250 a 499 salaries",
                 "500 a 999 salaries", "1 000 a 1 999 salaries", "2 000 a 4 999 salaries",
                 "5 000 a 9 999 salaries", "10 000 salaries et plus"],
    acronyme := none, original_expression := ">10",
    min_employees := 11, max_employees := none }

/-- Witness for C7 at the concrete input `">10"`. -/
theorem c7_numeric_bracket_rule_witness :
    parseSizeExpression ">10" = some c7WitnessResult ∧
    (c7WitnessResult.tranches = (INSEE_RANGES.filter
        (fun t => upperGe t.2.2 c7WitnessResult.min_employees &&
                  upperLe t.2.2 c7WitnessResult.max_employees)).map (·.1) ∧
     c7WitnessResult.acronyme = detectAcronym c7WitnessResult.min_employees c7WitnessResult.max_employees ∧
     ((c7WitnessResult.acronyme.isSome = true) ↔
       (c7WitnessResult.min_employees, c7WitnessResult.max_employees) ∈
         ACRONYM_BOUNDARIES.map Prod.snd)) :=
  ⟨by decide, c7_numeric_bracket_rule ">10" c7WitnessResult (by decide) (by decide)⟩

theorem buildNumericResult_ne_nil (e : String) (m : ℤ) (M : Option ℤ) (r : SizeMatchResult)
    (h : buildNumericResult e m M = some r) : r.tranches ≠ [] := by
  unfold buildNumericResult at h
  split at h
  · exact absurd h (by simp)
  · next hne =>
    simp only [Option.some.injEq] at h
    subst h
    simpa [List.isEmpty_iff] using hne

theorem parseSizeExact_ne_nil (e : String) (ec : List Char) (r : SizeMatchResult)
    (h : parseSizeExact e ec = some r) : r.tranches ≠ [] := by
  unfold parseSizeExact at h
  split at h
  · split at h
    · exact absurd h (by simp)
    · next hne =>
      simp only [Option.some.injEq] at h
      subst h
      simpa [List.isEmpty_iff] using hne
  · exact absurd h (by simp)

theorem parseSizeComp_ne_nil (e : String) (ec : List Char) (r : SizeMatchResult)
    (h : parseSizeComp e ec = some r) : r.tranches ≠ [] := by
  unfold parseSizeComp at h
  split at h
  · split at h
    · split at h
      · simp only [Option.some.injEq] at h
        subst h
        exact buildNumericResult_ne_nil _ _ _ _ (by assumption)
      · exact parseSizeExact_ne_nil _ _ _ h
    · split at h
      · split at h
        · simp only [Option.some.injEq] at h
          subst h
          exact buildNumericResult_ne_nil _ _ _ _ (by assumption)
        · exact parseSizeExact_ne_nil _ _ _ h
      · exact absurd h (by simp)
  · exact parseSizeExact_ne_nil _ _ _ h

theorem parseSizeNumeric_ne_nil (e : String) (ec : List Char) (r : SizeMatchResult)
    (h : parseSizeNumeric e ec = some r) : r.tranches ≠ [] := by
  unfold parseSizeNumeric at h
  split at h
  · simp only [Option.some.injEq] at h
    subst h
    next heq =>
    unfold parseSizeCombined at heq
    split at heq
    · exact buildNumericResult_ne_nil _ _ _ _ heq
    · exact absurd heq (by simp)
  · split at h
    · simp only [Option.some.injEq] at h
      subst h
      next heq =>
      unfold parseSizeRanged at heq
      split at heq
      · exact buildNumericResult_ne_nil _ _ _ _ heq
      · exact absurd heq (by simp)
    · exact parseSizeComp_ne_nil _ _ _ h

/-- C10: whenever `parse_size_expression` returns a result, the tranche list
is non-empty — the parser never succeeds with zero tranches. -/
theorem c10_success_nonempty (expr : String) (r : SizeMatchResult)
    (h : parseSizeExpression expr = some r) : r.tranches ≠ [] := by
  unfold parseSizeExpression at h
  split at h
  · exact absurd h (by simp)
  · split at h
    · next a heqa =>
      split at h
      · simp only [Option.some.injEq] at h
        subst h
        have ha := List.mem_of_find?_eq_some heqa
        fin_cases ha <;> simp
      · exact absurd h (by simp)
    · exact parseSizeNumeric_ne_nil _ _ _ h

/-- Concrete result of `parse_size_expression("PME")`, used to witness C10. -/
def c10WitnessResult : SizeMatchResult :=
  { tranches := ["10 a 19 salaries", "20 a 49 salaries", "50 a 99 salaries",
                 "100 a 199 salaries", "200 a 249 salaries"],
    acronyme := some "PME", original_expression := "PME",
    min_employees := 10, max_employees := some 249 }

/-- Witness for C10 at the concrete input `"PME"`. -/
theorem c10_success_nonempty_witness :
    parseSizeExpression "PME" = some c10WitnessResult ∧ c10WitnessResult.tranches ≠ [] :=
  ⟨by decide, c10_success_nonempty "PME" c10WitnessResult (by decide)⟩

/-!  ## Criteria bundle (wire shape of the extraction result)  -/

/-- The `localisation` section of an extraction result. -/
structure Localisation where
  present : Bool
  code_postal : Option String
  departement : Option String
  region : Option String
  commune : Option String
deriving DecidableEq, Repr

/-- The `activite` section of an extraction result. -/
structure Activite where
  present : Bool
  libelle_secteur : Option String
  activite_entreprise : Option String
deriving DecidableEq, Repr

/-- The `taille_entreprise` section of an extraction result
(`tranche_effectif` as the list the size matcher writes into it). -/
structure TailleEntreprise where
  present : Bool
  tranche_effectif : List String
  acronyme : Option String
deriving DecidableEq, Repr

/-- The `criteres_financiers` section of an extraction result. -/
structure CriteresFinanciers where
  present : Bool
  ca_plus_recent : Option ℤ
  resultat_net_plus_recent : Option ℤ
  rentabilite_plus_recente : Option ℤ
deriving DecidableEq, Repr

/-- The `criteres_juridiques` section of an extraction result. -/
structure CriteresJuridiques where
  present : Bool
  categorie_juridique : Option String
  siege_entreprise : Option String
  date_creation_entreprise : Option String
  capital : Option ℤ
  date_changement_dirigeant : Option String
  nombre_etablissements : Option ℤ
deriving DecidableEq, Repr

/-- An extraction result: the five criteria sections. -/
structure Extraction where
  localisation : Localisation
  activite : Activite
  taille_entreprise : TailleEntreprise
  criteres_financiers : CriteresFinanciers
  criteres_juridiques : CriteresJuridiques
deriving DecidableEq, Repr

/-!  ## Refinement controller (`services/refinement_service.py`)  -/

/-- `REFINEMENT_THRESHOLD` (the default of the environment variable). -/
def REFINEMENT_THRESHOLD : ℕ := 500

/-- `MAX_REFINEMENT_ROUNDS` (the default of the environment variable). -/
def MAX_REFINEMENT_ROUNDS : ℕ := 3

/-- `RefinementService.get_missing_criteria`: the sections of
`REFINEMENT_PRIORITY` whose `present` flag is false, in priority order. -/
def getMissingCriteria (e : Extraction) : List String :=
  (if !e.localisation.present then ["localisation"] else []) ++
  (if !e.taille_entreprise.present then ["taille_entreprise"] else []) ++
  (if !e.criteres_financiers.present then ["criteres_financiers"] else []) ++
  (if !e.criteres_juridiques.present then ["criteres_juridiques"] else [])

/-- `RefinementService.get_refinable_criteria`: `localisation` when it is
present and either only the region is set or a department is set without a
commune (the source's `if region and not commune and not departement /
elif departement and not commune`); `taille_entreprise` when it is present
and carries more than 3 tranches. -/
def getRefinableCriteria (e : Extraction) : List String :=
  (if e.localisation.present &&
      ((pyTruthy e.localisation.region && !pyTruthy e.localisation.commune &&
        !pyTruthy e.localisation.departement) ||
       (pyTruthy e.localisation.departement && !pyTruthy e.localisation.commune))
   then ["localisation"] else []) ++
  (if e.taille_entreprise.present && decide (e.taille_entreprise.tranche_effectif.length > 3)
   then ["taille_entreprise"] else [])

/-- `RefinementService.should_deliver_results` (with the service's
`threshold` passed explicitly; the default instance uses
`REFINEMENT_THRESHOLD`). -/
def shouldDeliverResults (threshold count : ℕ) (e : Extraction) (refinementRound : ℕ) : Bool :=
  if count ≤ threshold then true
  else if refinementRound ≥ MAX_REFINEMENT_ROUNDS then true
  else if (getMissingCriteria e).isEmpty && (getRefinableCriteria e).isEmpty then true
  else false

/-- A fully-specified bundle: every section present, location pinned to a
commune and size narrowed to a single tranche. -/
def completeExtraction : Extraction :=
  { localisation := { present := true, code_postal := none, departement := none,
                      region := none, commune := some "Lyon" },
    activite := { present := true, libelle_secteur := some "Restauration",
                  activite_entreprise := none },
    taille_entreprise := { present := true, tranche_effectif := ["10 a 19 salaries"],
                           acronyme := none },
    criteres_financiers := { present := true, ca_plus_recent := some 1000000,
                             resultat_net_plus_recent := none, rentabilite_plus_recente := none },
    criteres_juridiques := { present := true, categorie_juridique := none,
                             siege_entreprise := some "oui", date_creation_entreprise := none,
                             capital := none, date_changement_dirigeant := none,
                             nombre_etablissements := none } }

/-- C2: `should_deliver_results(count, bundle, round)` is true exactly when
`count ≤ threshold` (default 500), or `round ≥ max_rounds` (default 3), or
no required section is missing and no present section is further refinable;
in particular it is true at `count = 500, round = 1` for every bundle, and
at `count = 5000, round = 3` for a complete bundle. -/
theorem c2_should_deliver (count : ℕ) (e : Extraction) (refinementRound : ℕ) :
    (shouldDeliverResults REFINEMENT_THRESHOLD count e refinementRound = true ↔
      (count ≤ 500 ∨ refinementRound ≥ 3 ∨
        (getMissingCriteria e = [] ∧ getRefinableCriteria e = []))) ∧
    shouldDeliverResults REFINEMENT_THRESHOLD 500 e 1 = true ∧
    shouldDeliverResults REFINEMENT_THRESHOLD 5000 completeExtraction 3 = true := by
  refine ⟨?_, ?_, by decide⟩
  · simp only [shouldDeliverResults, REFINEMENT_THRESHOLD, MAX_REFINEMENT_ROUNDS]
    by_cases h1 : count ≤ 500
    · simp [h1]
    · by_cases h2 : refinementRound ≥ 3
      · simp [h1, h2]
      · by_cases h3 : getMissingCriteria e = [] ∧ getRefinableCriteria e = []
        · simp [h1, h2, h3.1, h3.2, List.isEmpty_iff]
        · simp only [if_neg h1, if_neg h2]
          rw [if_neg]
          · simp only [Bool.false_eq_true, false_iff]
            push_neg
            exact ⟨by omega, by omega, fun hm hr => h3 ⟨hm, hr⟩⟩
          · simp only [Bool.and_eq_true, List.isEmpty_iff]
            exact fun hc => h3 ⟨hc.1, hc.2⟩
  · simp [shouldDeliverResults, REFINEMENT_THRESHOLD]

/-- Short form of the condition the spec states for a refinable location:
only the region field is set. -/
def onlyRegionSet (l : Localisation) : Bool :=
  pyTruthy l.region && !pyTruthy l.commune && !pyTruthy l.departement

/-- A bundle whose location is present with only a department set and whose
size section is absent yet still carries four tranches: the code reports the
location (department-only branch) and not the size as refinable. -/
def c8Bundle : Extraction :=
  { localisation := { present := true, code_postal := none,
                      departement := some "Rhone", region := none, commune := none },
    activite := { present := false, libelle_secteur := none, activite_entreprise := none },
    taille_entreprise := { present := false,
                           tranche_effectif := ["0 salarie", "1 ou 2 salaries",
                                                "3 a 5 salaries", "6 a 9 salaries"],
                           acronyme := none },
    criteres_financiers := { present := false, ca_plus_recent := none,
                             resultat_net_plus_recent := none, rentabilite_plus_recente := none },
    criteres_juridiques := { present := false, categorie_juridique := none,
                             siege_entreprise := none, date_creation_entreprise := none,
                             capital := none, date_changement_dirigeant := none,
                             nombre_etablissements := none } }

/-- Counterexample to C8: on a bundle with a present location holding only a
department (no region, no commune) and an absent size section carrying four
tranches, `get_refinable_criteria` reports the location refinable although
only-region-set is false, and does not report the size refinable although
its tranche list has more than 3 entries. -/
theorem c8_counterexample :
    ¬( (("localisation" ∈ getRefinableCriteria c8Bundle) ↔ onlyRegionSet c8Bundle.localisation = true) ∧
       (("taille_entreprise" ∈ getRefinableCriteria c8Bundle) ↔
         c8Bundle.taille_entreprise.tranche_effectif.length > 3) ) := by
  intro h
  have h1 : "localisation" ∈ getRefinableCriteria c8Bundle := by decide
  have h2 := h.1.mp h1
  exact absurd h2 (by decide)

/-- C8 (amended): for a bundle whose location section is present,
`get_refinable_criteria` reports the location refinable exactly when only
the region is set or a department is set without a commune, and reports the
size refinable exactly when the size section is present and its tranche
list has more than 3 entries. -/
theorem c8_refinable_criteria (e : Extraction) (h : e.localisation.present = true) :
    (("localisation" ∈ getRefinableCriteria e) ↔
      (onlyRegionSet e.localisation = true ∨
       (pyTruthy e.localisation.departement && !pyTruthy e.localisation.commune) = true)) ∧
    (("taille_entreprise" ∈ getRefinableCriteria e) ↔
      (e.taille_entreprise.present = true ∧ e.taille_entreprise.tranche_effectif.length > 3)) := by
  unfold getRefinableCriteria onlyRegionSet
  rw [h]
  constructor
  · constructor
    · intro hm
      rw [List.mem_append] at hm
      rcases hm with hm | hm
      · split at hm
        · next hcond =>
          simp only [Bool.true_and, Bool.or_eq_true] at hcond
          exact hcond
        · exact absurd hm (by simp)
      · split at hm
        · exact absurd hm (by simp)
        · exact absurd hm (by simp)
    · intro hcond
      rw [List.mem_append]
      left
      rw [if_pos]
      · exact List.mem_singleton.mpr rfl
      · simp only [Bool.true_and, Bool.or_eq_true]
        exact hcond
  · constructor
    · intro hm
      rw [List.mem_append] at hm
      rcases hm with hm | hm
      · split at hm
        · exact absurd hm (by simp)
        · exact absurd hm (by simp)
      · split at hm
        · next hcond =>
          simp only [Bool.and_eq_true, decide_eq_true_eq] at hcond
          exact hcond
        · exact absurd hm (by simp)
    · intro hcond
      rw [List.mem_append]
      right
      rw [if_pos]
      · exact List.mem_singleton.mpr rfl
      · simp only [Bool.and_eq_true, decide_eq_true_eq]
        exact hcond

/-- A bundle with a present location holding only a region and a present
size section with five tranches, used to witness C8. -/
def c8WitnessBundle : Extraction :=
  { localisation := { present := true, code_postal := none,
                      departement := none, region := some "Bretagne", commune := none },
    activite := { present := false, libelle_secteur := none, activite_entreprise := none },
    taille_entreprise := { present := true,
                           tranche_effectif := ["10 a 19 salaries", "20 a 49 salaries",
                                                "50 a 99 salaries", "100 a 199 salaries",
                                                "200 a 249 salaries"],
                           acronyme := some "PME" },
    criteres_financiers := { present := false, ca_plus_recent := none,
                             resultat_net_plus_recent := none, rentabilite_plus_recente := none },
    criteres_juridiques := { present := false, categorie_juridique := none,
                             siege_entreprise := none, date_creation_entreprise := none,
                             capital := none, date_changement_dirigeant := none,
                             nombre_etablissements := none } }

/-- Witness for C8 at a concrete region-only bundle with a coarse size. -/
theorem c8_refinable_criteria_witness :
    ("localisation" ∈ getRefinableCriteria c8WitnessBundle) ∧
    ("taille_entreprise" ∈ getRefinableCriteria c8WitnessBundle) := by
  have h := c8_refinable_criteria c8WitnessBundle (by decide)
  exact ⟨h.1.mpr (Or.inl (by decide)), h.2.mpr ⟨by decide, by decide⟩⟩

/-!  ## Location matcher (`services/location_matcher.py`)  -/

/-- Accent stripping: the effect of Unicode NFKD/NFD decomposition followed
by removal of combining marks, for the Latin letters that occur in the
French reference vocabularies (accented vowels, cedilla, n-tilde); other
characters are unchanged. -/
def stripAccentChar (c : Char) : Char :=
  if c = 'à' ∨ c = 'â' ∨ c = 'ä' ∨ c = 'á' ∨ c = 'ã' ∨ c = 'å' then 'a'
  else if c = 'À' ∨ c = 'Â' ∨ c = 'Ä' ∨ c = 'Á' ∨ c = 'Ã' ∨ c = 'Å' then 'A'
  else if c = 'é' ∨ c = 'è' ∨ c = 'ê' ∨ c = 'ë' then 'e'
  else if c = 'É' ∨ c = 'È' ∨ c = 'Ê' ∨ c = 'Ë' then 'E'
  else if c = 'î' ∨ c = 'ï' ∨ c = 'í' ∨ c = 'ì' then 'i'
  else if c = 'Î' ∨ c = 'Ï' ∨ c = 'Í' ∨ c = 'Ì' then 'I'
  else if c = 'ô' ∨ c = 'ö' ∨ c = 'ó' ∨ c = 'ò' ∨ c = 'õ' then 'o'
  else if c = 'Ô' ∨ c = 'Ö' ∨ c = 'Ó' ∨ c = 'Ò' ∨ c = 'Õ' then 'O'
  else if c = 'û' ∨ c = 'ü' ∨ c = 'ù' ∨ c = 'ú' then 'u'
  else if c = 'Û' ∨ c = 'Ü' ∨ c = 'Ù' ∨ c = 'Ú' then 'U'
  else if c = 'ç' then 'c'
  else if c = 'Ç' then 'C'
  else if c = 'ñ' then 'n'
  else if c = 'Ñ' then 'N'
  else if c = 'ÿ' ∨ c = 'ý' then 'y'
  else c

/-- `normalize_text` from `location_matcher.py`: strip accents, lowercase,
strip surrounding whitespace. -/
def normalize_text (s : String) : String :=
  pyStrip (pyLower ⟨s.data.map stripAccentChar⟩)

/-- Inner loop of `levenshtein_distance`: compute the current row past its
leading cell, walking the previous row (`prevs.head = previous_row[j]`,
`prevs.tail.head = previous_row[j+1]`) with `left` the cell just written. -/
def levGo (c1 : Char) : List Char → List ℕ → ℕ → List ℕ
  | [], _, _ => []
  | c2 :: bs, prevs, left =>
    match prevs with
    | [] => []
    | pj :: rest =>
      let ins := rest.headD 0 + 1
      let del := left + 1
      let sub := pj + (if c1 = c2 then 0 else 1)
      let cur := min ins (min del sub)
      cur :: levGo c1 bs rest cur

/-- Dynamic-programming core of `levenshtein_distance` (rows over `s2`). -/
def levCore (s1 s2 : List Char) : ℕ :=
  if s2.isEmpty then s1.length
  else
    let final := (s1.foldl
      (fun (st : List ℕ × ℕ) c1 =>
        ((st.2 + 1) :: levGo c1 s2 st.1 (st.2 + 1), st.2 + 1))
      (List.range (s2.length + 1), 0)).1
    final.getLastD 0

/-- `levenshtein_distance` from `location_matcher.py` (the source first
swaps the arguments so the longer string comes first). -/
def levenshtein_distance (s1 s2 : List Char) : ℕ :=
  if s1.length < s2.length then levCore s2 s1 else levCore s1 s2

/-- `compute_similarity` from `location_matcher.py`: 1 on equal normalized
strings, 0 when either normalizes to empty, otherwise the Levenshtein
similarity floored at 0. -/
def computeSimilarity (s1 s2 : String) : ℚ :=
  if normalize_text s1 = normalize_text s2 then 1
  else if normalize_text s1 = "" ∨ normalize_text s2 = "" then 0
  else
    max 0 (1 - (levenshtein_distance (normalize_text s1).data (normalize_text s2).data : ℚ) /
      (max (normalize_text s1).length (normalize_text s2).length : ℚ))

/-- The `LocationMatcher` state: the three reference lists, their
normalized `(normalized, original)` indexes and the initialization flag. -/
structure LocationMatcher where
  communes : List String
  departements : List String
  regions : List String
  communes_normalized : List (String × String)
  departements_normalized : List (String × String)
  regions_normalized : List (String × String)
  initialized : Bool
deriving DecidableEq, Repr

/-- Reading one reference file in `LocationMatcher.initialize`: a missing
file (`Path.exists()` false, modelled as `none`) leaves the list empty;
otherwise lines are stripped and blank lines dropped. -/
def loadRefLines : Option (List String) → List String
  | none => []
  | some lines => (lines.map pyStrip).filter (fun s => !decide (s = ""))

/-- `LocationMatcher.initialize` from `location_matcher.py`: loads whichever
of the three files exist, builds the normalized indexes, sets the flag and
returns normally (a missing file is simply skipped, it never raises). -/
def initLocationMatcher (communesFile departementsFile regionsFile : Option (List String)) :
    LocationMatcher :=
  { communes := loadRefLines communesFile,
    departements := loadRefLines departementsFile,
    regions := loadRefLines regionsFile,
    communes_normalized := (loadRefLines communesFile).map (fun c => (normalize_text c, c)),
    departements_normalized := (loadRefLines departementsFile).map (fun c => (normalize_text c, c)),
    regions_normalized := (loadRefLines regionsFile).map (fun c => (normalize_text c, c)),
    initialized := true }

/-- One catalog pass of `find_best_match_across_all`: an exact normalized
hit scores 1.0, otherwise the edit similarity is kept when it reaches the
threshold; candidates are emitted in catalog order. -/
def collectMatches (query : String) (threshold : ℚ) (ftype : String)
    (pairs : List (String × String)) : List (String × String × ℚ) :=
  pairs.foldr
    (fun p acc =>
      if p.1 = normalize_text query then (p.2, ftype, (1 : ℚ)) :: acc
      else if threshold ≤ computeSimilarity query p.2 then
        (p.2, ftype, computeSimilarity query p.2) :: acc
      else acc)
    []

/-- All candidates of `find_best_match_across_all`, over the three catalogs
in source order (commune, departement, region). -/
def allMatchesFor (m : LocationMatcher) (query : String) (threshold : ℚ) :
    List (String × String × ℚ) :=
  collectMatches query threshold "commune" m.communes_normalized ++
  collectMatches query threshold "departement" m.departements_normalized ++
  collectMatches query threshold "region" m.regions_normalized

/-- Stable insertion for descending sort by score: an element moves before
the head only when its score is strictly greater, so equal scores keep
their relative order (Python's stable `sort(reverse=True)`). -/
def insertScoreDesc (x : String × String × ℚ) :
    List (String × String × ℚ) → List (String × String × ℚ)
  | [] => [x]
  | y :: ys => if y.2.2 < x.2.2 then x :: y :: ys else y :: insertScoreDesc x ys

/-- Stable descending sort by score. -/
def sortScoreDesc (l : List (String × String × ℚ)) : List (String × String × ℚ) :=
  l.foldl (fun acc x => insertScoreDesc x acc) []

/-- `find_best_match_across_all` from `location_matcher.py`: collect all
candidates over the three catalogs, sort descending by score, restrict to
the ties at the best score, then prefer the candidate whose category equals
`preferred_type`, else the first tied candidate. -/
def findBestMatchAcrossAll (m : LocationMatcher) (query : String)
    (preferredType : Option String) (threshold : ℚ) : Option (String × String × ℚ) :=
  if query = "" then none
  else
    match sortScoreDesc (allMatchesFor m query threshold) with
    | [] => none
    | best :: rest =>
      if ((best :: rest).filter (fun x => decide (x.2.2 = best.2.2))).length = 1 then
        ((best :: rest).filter (fun x => decide (x.2.2 = best.2.2))).head?
      else
        match preferredType with
        | some p =>
          match ((best :: rest).filter (fun x => decide (x.2.2 = best.2.2))).find?
              (fun x => decide (x.2.1 = p)) with
          | some mm => some mm
          | none => ((best :: rest).filter (fun x => decide (x.2.2 = best.2.2))).head?
        | none => ((best :: rest).filter (fun x => decide (x.2.2 = best.2.2))).head?

/-!  ## Lemmas about the cross-catalog matcher  -/

theorem head?_mem {α : Type} {l : List α} {a : α} (h : l.head? = some a) : a ∈ l := by
  cases l with
  | nil => exact absurd h (by simp)
  | cons x xs =>
    simp only [List.head?_cons, Option.some.injEq] at h
    exact h ▸ List.mem_cons_self x xs

theorem mem_of_mem_insertScoreDesc {x y : String × String × ℚ} {l : List (String × String × ℚ)}
    (h : x ∈ insertScoreDesc y l) : x = y ∨ x ∈ l := by
  induction l with
  | nil =>
    simp only [insertScoreDesc, List.mem_singleton] at h
    exact Or.inl h
  | cons z zs ih =>
    unfold insertScoreDesc at h
    split at h
    · rcases List.mem_cons.mp h with h | h
      · exact Or.inl h
      · exact Or.inr h
    · rcases List.mem_cons.mp h with h | h
      · exact Or.inr (h ▸ List.mem_cons_self z zs)
      · rcases ih h with h | h
        · exact Or.inl h
        · exact Or.inr (List.mem_cons_of_mem z h)

theorem mem_of_mem_sortScoreDesc_aux {x : String × String × ℚ} :
    ∀ (l acc : List (String × String × ℚ)),
      x ∈ l.foldl (fun acc y => insertScoreDesc y acc) acc → x ∈ acc ∨ x ∈ l := by
  intro l
  induction l with
  | nil => intro acc h; exact Or.inl h
  | cons z zs ih =>
    intro acc h
    rcases ih (insertScoreDesc z acc) h with h | h
    · rcases mem_of_mem_insertScoreDesc h with h | h
      · exact Or.inr (h ▸ List.mem_cons_self z zs)
      · exact Or.inl h
    · exact Or.inr (List.mem_cons_of_mem z h)

theorem mem_of_mem_sortScoreDesc {x : String × String × ℚ} {l : List (String × String × ℚ)}
    (h : x ∈ sortScoreDesc l) : x ∈ l := by
  rcases mem_of_mem_sortScoreDesc_aux l [] h with h | h
  · exact absurd h (by simp)
  · exact h

theorem collectMatches_score {x : String × String × ℚ} (query : String) (threshold : ℚ)
    (ftype : String) (pairs : List (String × String)) (hth : threshold ≤ 1)
    (h : x ∈ collectMatches query threshold ftype pairs) : threshold ≤ x.2.2 := by
  induction pairs with
  | nil => exact absurd h (by simp [collectMatches])
  | cons p ps ih =>
    unfold collectMatches at h ih
    simp only [List.foldr_cons] at h
    split at h
    · rcases List.mem_cons.mp h with h | h
      · subst h; exact hth
      · exact ih h
    · split at h
      · next hs =>
        rcases List.mem_cons.mp h with h | h
        · subst h; exact hs
        · exact ih h
      · exact ih h

theorem allMatchesFor_score {x : String × String × ℚ} (m : LocationMatcher) (query : String)
    (threshold : ℚ) (hth : threshold ≤ 1) (h : x ∈ allMatchesFor m query threshold) :
    threshold ≤ x.2.2 := by
  unfold allMatchesFor at h
  rcases List.mem_append.mp h with h | h
  · rcases List.mem_append.mp h with h | h
    · exact collectMatches_score _ _ _ _ hth h
    · exact collectMatches_score _ _ _ _ hth h
  · exact collectMatches_score _ _ _ _ hth h

/-!  ## Claim C3 (cross-catalog match scores)  -/

/-- C3 (amended): whenever `find_best_match_across_all` returns a match, its
score is at least the threshold, provided the threshold does not exceed 1
(scores are capped at 1 and exact normalized hits are always admitted at
score 1.0, regardless of the threshold). -/
theorem c3_returned_score_ge_threshold (m : LocationMatcher) (query : String)
    (pref : Option String) (threshold : ℚ) (hth : threshold ≤ 1)
    (v f : String) (s : ℚ) (h : findBestMatchAcrossAll m query pref threshold = some (v, f, s)) :
    threshold ≤ s := by
  unfold findBestMatchAcrossAll at h
  split at h
  · exact absurd h (by simp)
  · split at h
    · exact absurd h (by simp)
    · next best rest heq =>
      have hmem : (v, f, s) ∈ best :: rest := by
        split at h
        · exact (List.mem_filter.mp (head?_mem h)).1
        · split at h
          · split at h
            · simp only [Option.some.injEq] at h
              subst h
              exact (List.mem_filter.mp (List.mem_of_find?_eq_some (by assumption))).1
            · exact (List.mem_filter.mp (head?_mem h)).1
          · exact (List.mem_filter.mp (head?_mem h)).1
      have hsorted : (v, f, s) ∈ sortScoreDesc (allMatchesFor m query threshold) := by
        rw [heq]; exact hmem
      exact allMatchesFor_score m query threshold hth (mem_of_mem_sortScoreDesc hsorted)

/-- A matcher loaded with the single commune `paris`, used for C3. -/
def c3Matcher : LocationMatcher := initLocationMatcher (some ["paris"]) (some []) (some [])

/-- Counterexample to C3 as stated for arbitrary thresholds: with a
threshold of 2, the exact catalog hit `paris` is still returned with score
1.0, which is below the threshold argument. -/
theorem c3_counterexample :
    findBestMatchAcrossAll c3Matcher "paris" none 2 = some ("paris", "commune", 1) ∧
    (1 : ℚ) < 2 := by
  constructor
  · decide
  · norm_num

/-- Witness for C3 (amended) at the default threshold `0.7`: the returned
score 1.0 of the exact hit `paris` is at least the threshold. -/
theorem c3_returned_score_ge_threshold_witness : (7 / 10 : ℚ) ≤ 1 :=
  c3_returned_score_ge_threshold c3Matcher "paris" none (7 / 10) (by norm_num)
    "paris" "commune" 1 (by decide)

/-!  ## Sector matcher (`sector_matcher.py`)  -/

/-- Collapse internal whitespace: Python `" ".join(text.split())` (split on
whitespace runs, dropping empties, then re-join with single spaces). -/
def collapseSpaces (s : String) : String :=
  joinWithSep " " ((strSplit pyWhitespaceChar s).filter (fun w => !decide (w = "")))

/-- `normalize_for_comparison` from `sector_matcher.py`: NFD decomposition
with combining marks removed (the accent-stripping map), lowercase, strip,
whitespace collapse, then normalization of curly quotes and long dashes. -/
def normalize_for_comparison (s : String) : String :=
  if s = "" then ""
  else
    ⟨(collapseSpaces (pyStrip (pyLower ⟨s.data.map stripAccentChar⟩))).data.map
      (fun c =>
        if c = '’' ∨ c = '‘' then '\''
        else if c = '–' ∨ c = '—' then '-'
        else c)⟩

/-- `stop_words` of `get_significant_words` in `sector_matcher.py`. -/
def STOP_WORDS : List String :=
  ["de", "du", "des", "le", "la", "les", "et", "en", "a", "au", "aux",
   "d", "l", "n", "c", "qu", "sur", "pour", "par", "avec", "sans",
   "autres", "autre", "non", "hors", "except", "exception", "activites",
   "activite", "services", "service"]

/-- Keep-first deduplication against an accumulator of already-seen words. -/
def dedupStrsGo : List String → List String → List String
  | [], _ => []
  | x :: xs, seen =>
    if x ∈ seen then dedupStrsGo xs seen else x :: dedupStrsGo xs (x :: seen)

/-- Keep-first deduplication, modelling the Python `set(...)` used by
`get_significant_words` (only the member set matters to the scorer). -/
def dedupStrs (l : List String) : List String := dedupStrsGo l []

/-- `get_significant_words` from `sector_matcher.py`:
`set(text.lower().split()) - stop_words`. -/
def get_significant_words (text : String) : List String :=
  (dedupStrs ((strSplit pyWhitespaceChar (pyLower text)).filter (fun w => !decide (w = "")))).filter
    (fun w => !decide (w ∈ STOP_WORDS))

/-- `normalize_word` from `sector_matcher.py` (light French stemming). -/
def normalize_word (w : String) : String :=
  if w.length > 4 then
    if strEndsWith w "s" ∧ ¬ strEndsWith w "ss" then strDropRight w 1
    else if strEndsWith w "es" then strDropRight w 2
    else if strEndsWith w "ment" then strDropRight w 4
    else w
  else w

/-- `words_match_fuzzy` from `sector_matcher.py`: exact, stemmed, or
4-character-plus prefix containment. -/
def words_match_fuzzy (w1 w2 : String) : Bool :=
  if w1 = w2 then true
  else if normalize_word w1 = normalize_word w2 then true
  else if w1.length ≥ 4 ∧ w2.length ≥ 4 then (strStartsWith w1 w2 || strStartsWith w2 w1)
  else false

/-- `word_overlap_score` from `sector_matcher.py`: fraction of significant
prediction words matching some reference word, plus a flat 0.3 bonus when
all of them match. -/
def word_overlap_score (pred ref : String) : ℚ :=
  if (get_significant_words pred).isEmpty then 0
  else
    if ((get_significant_words pred).filter
          (fun p => (get_significant_words ref).any (fun r => words_match_fuzzy p r))).length =
        (get_significant_words pred).length then
      (((get_significant_words pred).filter
          (fun p => (get_significant_words ref).any (fun r => words_match_fuzzy p r))).length : ℚ) /
        ((get_significant_words pred).length : ℚ) + 3 / 10
    else
      (((get_significant_words pred).filter
          (fun p => (get_significant_words ref).any (fun r => words_match_fuzzy p r))).length : ℚ) /
        ((get_significant_words pred).length : ℚ)

/-- Python `a in b` substring test on character lists. -/
def isSubstringOf : List Char → List Char → Bool
  | a, [] => a.isEmpty
  | a, c :: bs => charsStartWith a (c :: bs) || isSubstringOf a bs

/-- One DP row of `difflib.SequenceMatcher.find_longest_match`:
`row[j] = (diag + 1 if b[j] = a_i else 0)` where `diag` walks the previous
row one cell behind. -/
def lcsRowNext (ai : Char) : List Char → List ℕ → ℕ → List ℕ
  | [], _, _ => []
  | bj :: bs, prevs, diag =>
    (if bj = ai then diag + 1 else 0) :: lcsRowNext ai bs prevs.tail (prevs.headD 0)

/-- Scan a DP row, updating the best block `(i0, j0, size)` exactly when the
new size is strictly larger (Python's `k > bestsize` with `i`, `j`
ascending, so the earliest maximal block wins). -/
def scanRowBest : List ℕ → ℕ → ℕ → (ℕ × ℕ × ℕ) → (ℕ × ℕ × ℕ)
  | [], _, _, best => best
  | k :: rest, i, j, best =>
    scanRowBest rest i (j + 1) (if best.2.2 < k then (i + 1 - k, j + 1 - k, k) else best)

/-- Row-by-row driver of `find_longest_match`. -/
def flmGo (b : List Char) : List Char → ℕ → List ℕ → (ℕ × ℕ × ℕ) → (ℕ × ℕ × ℕ)
  | [], _, _, best => best
  | ai :: arest, i, prev, best =>
    flmGo b arest (i + 1) (lcsRowNext ai b prev 0)
      (scanRowBest (lcsRowNext ai b prev 0) i 0 best)

/-- `difflib.SequenceMatcher.find_longest_match` without junk (the sector
labels are far below the 200-character autojunk threshold, so the junk
machinery is inert): the longest common substring, earliest in `a` then in
`b` on ties. -/
def findLongestMatchBlock (a b : List Char) : ℕ × ℕ × ℕ :=
  flmGo b a 0 (List.replicate b.length 0) (0, 0, 0)

/-- Total size of the matching blocks of `difflib.SequenceMatcher`
(`get_matching_blocks` recursion, which splits around each longest match);
the fuel argument strictly exceeds the recursion depth. -/
def matchingTotal : ℕ → List Char → List Char → ℕ
  | 0, _, _ => 0
  | fuel + 1, a, b =>
    if (findLongestMatchBlock a b).2.2 = 0 then 0
    else
      (findLongestMatchBlock a b).2.2 +
      matchingTotal fuel (a.take (findLongestMatchBlock a b).1)
        (b.take (findLongestMatchBlock a b).2.1) +
      matchingTotal fuel (a.drop ((findLongestMatchBlock a b).1 + (findLongestMatchBlock a b).2.2))
        (b.drop ((findLongestMatchBlock a b).2.1 + (findLongestMatchBlock a b).2.2))

/-- `string_similarity` from `sector_matcher.py`:
`difflib.SequenceMatcher(None, s1, s2).ratio() = 2*M/T` (and 1.0 when both
strings are empty). -/
def ratioScore (s1 s2 : String) : ℚ :=
  if s1.data.length + s2.data.length = 0 then 1
  else 2 * (matchingTotal (s1.data.length + 1) s1.data s2.data : ℚ) /
    ((s1.data.length + s2.data.length : ℕ) : ℚ)

/-- Python dict insertion: overwrite in place when the key exists (keeping
its position), else append. -/
def dictInsert : List (String × String) → String → String → List (String × String)
  | [], k, v => [(k, v)]
  | (k', v') :: rest, k, v =>
    if k' = k then (k, v) :: rest else (k', v') :: dictInsert rest k v

/-- Python dict lookup (first — and only — entry with the key). -/
def dictLookup (d : List (String × String)) (k : String) : Option String :=
  (d.find? (fun p => decide (p.1 = k))).map (·.2)

/-- `load_sectors` from `sector_matcher.py`: a missing reference file
(`Path.exists()` false, modelled as `none`) raises `FileNotFoundError`,
modelled as `Except.error`; otherwise lines are stripped and blank lines
dropped. -/
def load_sectors (filepath : String) (file : Option (List String)) :
    Except String (List String) :=
  match file with
  | none => .error ("Reference file not found: " ++ filepath)
  | some lines => .ok ((lines.map pyStrip).filter (fun s => !decide (s = "")))

/-- The `SectorMatcher` state: the catalog and its two dict indexes
(`sectors_normalized` keyed by `normalize_for_comparison`, `sectors_lower`
keyed by `str.lower()`), built with Python dict insertion order. -/
structure SectorMatcher where
  sectors : List String
  sectors_normalized : List (String × String)
  sectors_lower : List (String × String)
deriving DecidableEq, Repr

/-- Build a `SectorMatcher` from a loaded catalog (the body of
`SectorMatcher.__init__` after `load_sectors` succeeded). -/
def mkSectorMatcher (sectors : List String) : SectorMatcher :=
  { sectors := sectors,
    sectors_normalized :=
      sectors.foldl (fun d s => dictInsert d (normalize_for_comparison s) s) [],
    sectors_lower := sectors.foldl (fun d s => dictInsert d (pyLower s) s) [] }

/-- `SectorMatcher.__init__`: construction calls `load_sectors` first, so a
missing reference file propagates as an error (the constructor raises). -/
def sectorMatcherInit (filepath : String) (file : Option (List String)) :
    Except String SectorMatcher :=
  (load_sectors filepath file).map mkSectorMatcher

/-- Tier-3 candidate list of `SectorMatcher.match`: the catalog entries
whose normalized form contains the normalized prediction (note: only this
direction is tested), each paired with its normalized length. -/
def containmentHits (m : SectorMatcher) (predNorm : String) : List (String × ℕ) :=
  m.sectors_normalized.foldr
    (fun p acc => if isSubstringOf predNorm.data p.1.data then (p.2, p.1.length) :: acc else acc)
    []

/-- Stable insertion for ascending sort by length (`sort(key=len)`). -/
def insertLenAsc (x : String × ℕ) : List (String × ℕ) → List (String × ℕ)
  | [] => [x]
  | y :: ys => if x.2 < y.2 then x :: y :: ys else y :: insertLenAsc x ys

/-- Stable ascending sort by length. -/
def sortLenAsc (l : List (String × ℕ)) : List (String × ℕ) :=
  l.foldl (fun acc x => insertLenAsc x acc) []

/-- Tier-4 fold of `SectorMatcher.match`: best combined fuzzy score
`0.7*word_overlap + 0.3*char_similarity (+0.2 on containment)` over the
normalized catalog, first maximum winning (`score > best_score`). -/
def tier4Best (m : SectorMatcher) (predNorm : String) : Option String × ℚ :=
  m.sectors_normalized.foldl
    (fun best p =>
      if best.2 <
          word_overlap_score predNorm p.1 * (7 / 10) + ratioScore predNorm p.1 * (3 / 10) +
            (if isSubstringOf predNorm.data p.1.data then (2 / 10) else 0) then
        (some p.2,
         word_overlap_score predNorm p.1 * (7 / 10) + ratioScore predNorm p.1 * (3 / 10) +
           (if isSubstringOf predNorm.data p.1.data then (2 / 10) else 0))
      else best)
    (none, 0)

/-- `SectorMatcher.match`: empty prediction fails, then the four tiers —
exact lowercase lookup, exact normalized lookup, shortest containment hit,
and the combined fuzzy score against the threshold. -/
def smatch (m : SectorMatcher) (prediction : String) (threshold : ℚ) : Option String :=
  if prediction = "" then none
  else
    match dictLookup m.sectors_lower (pyLower (pyStrip prediction)) with
    | some v => some v
    | none =>
      match dictLookup m.sectors_normalized (normalize_for_comparison (pyStrip prediction)) with
      | some v => some v
      | none =>
        match sortLenAsc (containmentHits m (normalize_for_comparison (pyStrip prediction))) with
        | h :: _ => some h.1
        | [] =>
          if threshold ≤ (tier4Best m (normalize_for_comparison (pyStrip prediction))).2 then
            (tier4Best m (normalize_for_comparison (pyStrip prediction))).1
          else none

/-!  ## Lemmas about the containment tier  -/

theorem mem_insertLenAsc {x y : String × ℕ} {l : List (String × ℕ)} :
    x ∈ insertLenAsc y l ↔ x = y ∨ x ∈ l := by
  induction l with
  | nil => simp [insertLenAsc]
  | cons z zs ih =>
    unfold insertLenAsc
    split
    · simp [List.mem_cons]
    · simp only [List.mem_cons, ih]
      tauto

theorem insertLenAsc_pairwise {y : String × ℕ} {l : List (String × ℕ)}
    (h : l.Pairwise (fun a b => a.2 ≤ b.2)) :
    (insertLenAsc y l).Pairwise (fun a b => a.2 ≤ b.2) := by
  induction l with
  | nil => simp [insertLenAsc]
  | cons z zs ih =>
    unfold insertLenAsc
    rcases List.pairwise_cons.mp h with ⟨hz, hzs⟩
    split
    · next hlt =>
      refine List.pairwise_cons.mpr ⟨?_, h⟩
      intro b hb
      rcases List.mem_cons.mp hb with hb | hb
      · exact hb ▸ Nat.le_of_lt hlt
      · exact le_trans (Nat.le_of_lt hlt) (hz b hb)
    · next hge =>
      refine List.pairwise_cons.mpr ⟨?_, ih hzs⟩
      intro b hb
      rcases mem_insertLenAsc.mp hb with hb | hb
      · exact hb ▸ Nat.le_of_not_lt hge
      · exact hz b hb

theorem sortLenAsc_aux_pairwise :
    ∀ (l acc : List (String × ℕ)), acc.Pairwise (fun a b => a.2 ≤ b.2) →
      (l.foldl (fun acc x => insertLenAsc x acc) acc).Pairwise (fun a b => a.2 ≤ b.2) := by
  intro l
  induction l with
  | nil => intro acc h; exact h
  | cons z zs ih => intro acc h; exact ih _ (insertLenAsc_pairwise h)

theorem sortLenAsc_pairwise (l : List (String × ℕ)) :
    (sortLenAsc l).Pairwise (fun a b => a.2 ≤ b.2) :=
  sortLenAsc_aux_pairwise l [] (by simp)

theorem mem_sortLenAsc_aux {x : String × ℕ} :
    ∀ (l acc : List (String × ℕ)),
      (x ∈ l.foldl (fun acc y => insertLenAsc y acc) acc ↔ x ∈ acc ∨ x ∈ l) := by
  intro l
  induction l with
  | nil => intro acc; simp
  | cons z zs ih =>
    intro acc
    rw [List.foldl_cons, ih (insertLenAsc z acc)]
    rw [mem_insertLenAsc]
    simp only [List.mem_cons]
    tauto

theorem mem_sortLenAsc {x : String × ℕ} {l : List (String × ℕ)} :
    x ∈ sortLenAsc l ↔ x ∈ l := by
  rw [sortLenAsc, mem_sortLenAsc_aux l []]
  simp

theorem sortLenAsc_head_min {l : List (String × ℕ)} {hd : String × ℕ}
    (h : (sortLenAsc l).head? = some hd) : ∀ x ∈ l, hd.2 ≤ x.2 := by
  intro x hx
  have hxs : x ∈ sortLenAsc l := mem_sortLenAsc.mpr hx
  have hp := sortLenAsc_pairwise l
  cases hsl : sortLenAsc l with
  | nil => rw [hsl] at hxs; exact absurd hxs (by simp)
  | cons a rest =>
    rw [hsl] at h hxs hp
    simp only [List.head?_cons, Option.some.injEq] at h
    subst h
    rcases List.mem_cons.mp hxs with hxs | hxs
    · exact hxs ▸ le_refl _
    · exact (List.pairwise_cons.mp hp).1 x hxs

theorem sortLenAsc_ne_nil {l : List (String × ℕ)} (h : l ≠ []) : sortLenAsc l ≠ [] := by
  intro hnil
  cases l with
  | nil => exact h rfl
  | cons a rest =>
    have : a ∈ sortLenAsc (a :: rest) := mem_sortLenAsc.mpr (List.mem_cons_self a rest)
    rw [hnil] at this
    exact absurd this (by simp)

/-!  ## Claim C4 (sector containment tier)  -/

/-- C4 (amended): when tiers 1 and 2 of `SectorMatcher.match` fail, the
containment tier fires exactly on the entries whose normalized form
contains the normalized prediction — containment in the other direction
(catalog entry inside the prediction) does not trigger it — and among the
hits it returns the one with the shortest normalized form. -/
theorem c4_containment_tier (m : SectorMatcher) (prediction : String) (threshold : ℚ)
    (hne : prediction ≠ "")
    (h1 : dictLookup m.sectors_lower (pyLower (pyStrip prediction)) = none)
    (h2 : dictLookup m.sectors_normalized (normalize_for_comparison (pyStrip prediction)) = none)
    (h3 : containmentHits m (normalize_for_comparison (pyStrip prediction)) ≠ []) :
    smatch m prediction threshold =
      (sortLenAsc (containmentHits m (normalize_for_comparison (pyStrip prediction)))).head?.map
        Prod.fst ∧
    ∀ hd, (sortLenAsc (containmentHits m (normalize_for_comparison (pyStrip prediction)))).head? =
        some hd →
      ∀ x ∈ containmentHits m (normalize_for_comparison (pyStrip prediction)), hd.2 ≤ x.2 := by
  constructor
  · unfold smatch
    rw [if_neg hne, h1, h2]
    cases hsl : sortLenAsc (containmentHits m (normalize_for_comparison (pyStrip prediction))) with
    | nil => exact absurd hsl (by intro hc; exact sortLenAsc_ne_nil h3 hc)
    | cons h t => simp
  · intro hd hhd x hx
    exact sortLenAsc_head_min hhd x hx

/-- Sector matcher over the catalog `["abcdef", "abcd"]`, used to witness
C4: the prediction `abc` is contained in both entries and the shorter entry
wins. -/
def c4WitnessMatcher : SectorMatcher := mkSectorMatcher ["abcdef", "abcd"]

/-- Witness for C4 (amended): `match("abc")` on the catalog
`["abcdef", "abcd"]` returns the shortest containing entry `abcd`. -/
theorem c4_containment_tier_witness :
    smatch c4WitnessMatcher "abc" (3 / 5) = some "abcd" := by
  have h := (c4_containment_tier c4WitnessMatcher "abc" (3 / 5)
    (by decide) (by decide) (by decide) (by decide)).1
  rw [h]
  decide

/-- Sector matcher over the single-entry catalog `["paris"]`, used for the
C4 counterexample. -/
def c4CounterMatcher : SectorMatcher := mkSectorMatcher ["paris"]

set_option maxRecDepth 4000 in
/-- Counterexample to C4 as stated: for the prediction `qqqqparisqqqq` the
catalog entry `paris` is contained in the normalized prediction (the
"vice versa" direction of the claim), tiers 1 and 2 fail, yet the
containment tier collects no hit and the whole match returns `none`
instead of the shortest containing entry. -/
theorem c4_counterexample :
    isSubstringOf (normalize_for_comparison "paris").data
      (normalize_for_comparison (pyStrip "qqqqparisqqqq")).data = true ∧
    containmentHits c4CounterMatcher (normalize_for_comparison (pyStrip "qqqqparisqqqq")) = [] ∧
    smatch c4CounterMatcher "qqqqparisqqqq" (3 / 5) = none := by
  refine ⟨by decide, by decide, by with_unfolding_all decide⟩

/-!  ## Claim C5 (missing reference files)  -/

/-- Counterexample to C5 as stated for "every matcher": the sector matcher's
constructor calls `load_sectors`, which raises `FileNotFoundError` when the
reference file is missing — construction does not succeed. -/
theorem c5_counterexample :
    sectorMatcherInit "data/libelle_secteur.txt" none =
      Except.error "Reference file not found: data/libelle_secteur.txt" := by
  rfl

/-- C5 (amended): the location matcher degrades gracefully — with all three
reference files missing, `initialize` still completes with the flag set and
`find_best_match_across_all` returns no match for every query — while the
sector matcher does not: `load_sectors` raises `FileNotFoundError`, so its
construction fails instead of degrading to "always no match". -/
theorem c5_missing_files :
    (∀ (query : String) (pref : Option String) (threshold : ℚ),
      findBestMatchAcrossAll (initLocationMatcher none none none) query pref threshold = none) ∧
    (initLocationMatcher none none none).initialized = true ∧
    sectorMatcherInit "data/libelle_secteur.txt" none =
      Except.error "Reference file not found: data/libelle_secteur.txt" := by
  refine ⟨?_, rfl, by rfl⟩
  intro query pref threshold
  unfold findBestMatchAcrossAll
  split
  · rfl
  · split
    · rfl
    · next best rest heq =>
      have : sortScoreDesc (allMatchesFor (initLocationMatcher none none none) query threshold) =
          [] := by
        rfl
      rw [this] at heq
      exact absurd heq (by simp)

/-!  ## Location bundle matching (`LocationMatcher.match_locations`)  -/

/-- `DEPARTEMENT_NUMBERS` from `location_matcher.py`: administrative
department codes to names. -/
def DEPARTEMENT_NUMBERS : List (String × String) :=
  [ ("01", "Ain"), ("02", "Aisne"), ("03", "Allier"), ("04", "Alpes-de-Haute-Provence"),
    ("05", "Hautes-Alpes"), ("06", "Alpes-Maritimes"), ("07", "Ardeche"), ("08", "Ardennes"),
    ("09", "Ariege"), ("10", "Aube"), ("11", "Aude"), ("12", "Aveyron"),
    ("13", "Bouches-du-Rhone"), ("14", "Calvados"), ("15", "Cantal"), ("16", "Charente"),
    ("17", "Charente-Maritime"), ("18", "Cher"), ("19", "Correze"), ("2A", "Corse-du-Sud"),
    ("2B", "Haute-Corse"), ("21", "Cote-d'Or"), ("22", "Cotes-d'Armor"), ("23", "Creuse"),
    ("24", "Dordogne"), ("25", "Doubs"), ("26", "Drome"), ("27", "Eure"),
    ("28", "Eure-et-Loir"), ("29", "Finistere"), ("30", "Gard"), ("31", "Haute-Garonne"),
    ("32", "Gers"), ("33", "Gironde"), ("34", "Herault"), ("35", "Ille-et-Vilaine"),
    ("36", "Indre"), ("37", "Indre-et-Loire"), ("38", "Isere"), ("39", "Jura"),
    ("40", "Landes"), ("41", "Loir-et-Cher"), ("42", "Loire"), ("43", "Haute-Loire"),
    ("44", "Loire-Atlantique"), ("45", "Loiret"), ("46", "Lot"), ("47", "Lot-et-Garonne"),
    ("48", "Lozere"), ("49", "Maine-et-Loire"), ("50", "Manche"), ("51", "Marne"),
    ("52", "Haute-Marne"), ("53", "Mayenne"), ("54", "Meurthe-et-Moselle"), ("55", "Meuse"),
    ("56", "Morbihan"), ("57", "Moselle"), ("58", "Nievre"), ("59", "Nord"),
    ("60", "Oise"), ("61", "Orne"), ("62", "Pas-de-Calais"), ("63", "Puy-de-Dome"),
    ("64", "Pyrenees-Atlantiques"), ("65", "Hautes-Pyrenees"), ("66", "Pyrenees-Orientales"),
    ("67", "Bas-Rhin"), ("68", "Haut-Rhin"), ("69", "Rhone"), ("70", "Haute-Saone"),
    ("71", "Saone-et-Loire"), ("72", "Sarthe"), ("73", "Savoie"), ("74", "Haute-Savoie"),
    ("75", "Paris"), ("76", "Seine-Maritime"), ("77", "Seine-et-Marne"), ("78", "Yvelines"),
    ("79", "Deux-Sevres"), ("80", "Somme"), ("81", "Tarn"), ("82", "Tarn-et-Garonne"),
    ("83", "Var"), ("84", "Vaucluse"), ("85", "Vendee"), ("86", "Vienne"),
    ("87", "Haute-Vienne"), ("88", "Vosges"), ("89", "Yonne"), ("90", "Territoire de Belfort"),
    ("91", "Essonne"), ("92", "Hauts-de-Seine"), ("93", "Seine-Saint-Denis"),
    ("94", "Val-de-Marne"), ("95", "Val-d'Oise"),
    ("971", "Guadeloupe"), ("972", "Martinique"), ("973", "Guyane"),
    ("974", "La Reunion"), ("976", "Mayotte"), ("975", "Saint-Pierre-et-Miquelon") ]

/-- Lookup in an association table (Python `dict` access after an `in`
test). -/
def lookupTable (l : List (String × String)) (k : String) : Option String :=
  (l.find? (fun p => decide (p.1 = k))).map (·.2)

/-- `LocationCorrection` dataclass from `location_matcher.py`. -/
structure LocationCorrection where
  original_value : String
  matched_value : String
  original_field : String
  matched_field : String
  score : ℚ
deriving DecidableEq, Repr

/-- `LocationCorrection.was_corrected`: value or field changed. -/
def wasCorrected (c : LocationCorrection) : Bool :=
  !decide (c.original_value = c.matched_value) || !decide (c.original_field = c.matched_field)

/-- `LocationCorrection.field_changed`. -/
def fieldChanged (c : LocationCorrection) : Bool :=
  !decide (c.original_field = c.matched_field)

/-- `_split_multi_values` from `location_matcher.py`: split on commas,
strip, drop empty parts. -/
def splitMultiValues (value : String) : List String :=
  ((strSplit (fun c => c = ',') value).map pyStrip).filter (fun s => !decide (s = ""))

/-- Tokens contributed by one field of the `localisation` section:
a truthy value is comma-split into `(field, token)` pairs. -/
def fieldTokens (fname : String) (v : Option String) : List (String × String) :=
  match v with
  | some s => if s ≠ "" then (splitMultiValues s).map (fun x => (fname, x)) else []
  | none => []

/-- The `(field, value)` token list gathered by `match_locations` over the
commune, departement and region slots, in source order. -/
def collectLocationTokens (loc : Localisation) : List (String × String) :=
  fieldTokens "commune" loc.commune ++ fieldTokens "departement" loc.departement ++
  fieldTokens "region" loc.region

/-- Accumulated matched values per category (`matched_fields` in the
source). -/
structure MatchedFields where
  commune : List String
  departement : List String
  region : List String
deriving DecidableEq, Repr

/-- Read the list of one category. -/
def mfGet (mf : MatchedFields) (f : String) : List String :=
  if f = "commune" then mf.commune
  else if f = "departement" then mf.departement
  else mf.region

/-- Append a value to one category's list. -/
def mfAppend (mf : MatchedFields) (f : String) (v : String) : MatchedFields :=
  if f = "commune" then { mf with commune := mf.commune ++ [v] }
  else if f = "departement" then { mf with departement := mf.departement ++ [v] }
  else { mf with region := mf.region ++ [v] }

/-- The token loop of `match_locations`: each token is resolved across all
catalogs with its source field as tie-break preference; a match appends the
canonical value (if not already accumulated for the matched category) and
emits a correction, a duplicate match emits nothing, and a failed token
emits a correction with empty matched value and score 0. -/
def processTokens (m : LocationMatcher) :
    List (String × String) → MatchedFields → List LocationCorrection →
    MatchedFields × List LocationCorrection
  | [], mf, corrs => (mf, corrs)
  | (ofield, value) :: rest, mf, corrs =>
    match findBestMatchAcrossAll m value (some ofield) (7 / 10) with
    | some (mv, cf, score) =>
      if mv ∈ mfGet mf cf then processTokens m rest mf corrs
      else
        processTokens m rest (mfAppend mf cf mv)
          (corrs ++ [{ original_value := value, matched_value := mv,
                       original_field := ofield, matched_field := cf, score := score }])
    | none =>
      processTokens m rest mf
        (corrs ++ [{ original_value := value, matched_value := "",
                     original_field := ofield, matched_field := ofield, score := 0 }])

/-- Join a category's accumulated values with `", "`, or `None` when the
list is empty. -/
def joinOrNone (l : List String) : Option String :=
  if l.isEmpty then none else some (joinWithSep ", " l)

/-- The postal-code rewrite at the top of `match_locations`: a truthy
`code_postal` of at most three characters that appears (upper-cased) in
`DEPARTEMENT_NUMBERS` is recorded as a score-1.0 correction, moved into the
`departement` slot when that slot is empty, and cleared. -/
def applyCodePostal (loc : Localisation) : Localisation × List LocationCorrection :=
  match loc.code_postal with
  | some cp =>
    if cp ≠ "" then
      if (pyStrip cp).length ≤ 3 then
        match lookupTable DEPARTEMENT_NUMBERS (pyUpper (pyStrip cp)) with
        | some deptName =>
          ({ loc with
              departement := if pyTruthy loc.departement then loc.departement else some deptName,
              code_postal := none },
           [{ original_value := pyStrip cp, matched_value := deptName,
              original_field := "code_postal", matched_field := "departement", score := 1 }])
        | none => (loc, [])
      else (loc, [])
    else (loc, [])
  | none => (loc, [])

/-- `match_locations` from `location_matcher.py`: no-op when the matcher is
uninitialized or the location section absent; otherwise the postal-code
rewrite runs, every token is matched, and the three slots are rewritten to
the comma-joined matched values (or `None`). -/
def match_locations (m : LocationMatcher) (e : Extraction) :
    Extraction × List LocationCorrection :=
  if !m.initialized then (e, [])
  else if !e.localisation.present then (e, [])
  else
    match applyCodePostal e.localisation with
    | (loc1, cpCorrs) =>
      match processTokens m (collectLocationTokens loc1) ⟨[], [], []⟩ cpCorrs with
      | (mf, corrs) =>
        ({ e with localisation :=
            { loc1 with
                commune := joinOrNone mf.commune,
                departement := joinOrNone mf.departement,
                region := joinOrNone mf.region } },
         corrs)

/-- Count of tokens whose resolved canonical value was already accumulated
for the matched category (the tokens `match_locations` silently drops from
the correction list); defined by the same recursion as the token loop. -/
def duplicateTokenCount (m : LocationMatcher) :
    List (String × String) → MatchedFields → ℕ
  | [], _ => 0
  | (ofield, value) :: rest, mf =>
    match findBestMatchAcrossAll m value (some ofield) (7 / 10) with
    | some (mv, cf, _) =>
      if mv ∈ mfGet mf cf then 1 + duplicateTokenCount m rest mf
      else duplicateTokenCount m rest (mfAppend mf cf mv)
    | none => duplicateTokenCount m rest mf

/-!  ## Claim C9 (one correction per token)  -/

theorem processTokens_length (m : LocationMatcher) :
    ∀ (tokens : List (String × String)) (mf : MatchedFields) (corrs : List LocationCorrection),
      (processTokens m tokens mf corrs).2.length + duplicateTokenCount m tokens mf =
        corrs.length + tokens.length := by
  intro tokens
  induction tokens with
  | nil => intro mf corrs; simp [processTokens, duplicateTokenCount]
  | cons t rest ih =>
    intro mf corrs
    rcases t with ⟨ofield, value⟩
    unfold processTokens duplicateTokenCount
    cases hf : findBestMatchAcrossAll m value (some ofield) (7 / 10) with
    | none =>
      have h := ih mf (corrs ++ [({ original_value := value, matched_value := "",
                                    original_field := ofield, matched_field := ofield,
                                    score := 0 } : LocationCorrection)])
      simp only [List.length_append, List.length_cons, List.length_nil] at h ⊢
      omega
    | some r =>
      rcases r with ⟨mv, cf, score⟩
      by_cases hdup : mv ∈ mfGet mf cf
      · have h := ih mf corrs
        simp only [if_pos hdup, List.length_cons] at h ⊢
        omega
      · have h := ih (mfAppend mf cf mv)
          (corrs ++ [({ original_value := value, matched_value := mv,
                        original_field := ofield, matched_field := cf,
                        score := score } : LocationCorrection)])
        simp only [if_neg hdup, List.length_append, List.length_cons, List.length_nil] at h ⊢
        omega

/-- C9 (amended): when the matcher is initialized, the location section is
present and there is no postal code to rewrite, `match_locations` emits
exactly one correction per comma-split token except for tokens whose
resolved canonical value was already accumulated for the matched category —
those emit none, so the correction count is the token count minus the
duplicate count. -/
theorem c9_corrections_per_token (m : LocationMatcher) (e : Extraction)
    (hinit : m.initialized = true) (hpres : e.localisation.present = true)
    (hcp : e.localisation.code_postal = none) :
    (match_locations m e).2.length +
      duplicateTokenCount m (collectLocationTokens e.localisation) ⟨[], [], []⟩ =
    (collectLocationTokens e.localisation).length := by
  unfold match_locations
  have hacp : applyCodePostal e.localisation = (e.localisation, []) := by
    unfold applyCodePostal
    rw [hcp]
  rw [hinit, hpres, hacp]
  simp only [Bool.not_true, Bool.false_eq_true, if_false]
  have hlen := processTokens_length m (collectLocationTokens e.localisation) ⟨[], [], []⟩ []
  rcases hp : processTokens m (collectLocationTokens e.localisation) ⟨[], [], []⟩ [] with ⟨mf, corrs⟩
  rw [hp] at hlen
  simp only [List.length_nil, Nat.zero_add] at hlen
  simpa using hlen

/-- A matcher loaded with the communes `Paris` and `Lyon`, used to witness
C9. -/
def c9Matcher : LocationMatcher := initLocationMatcher (some ["Paris", "Lyon"]) (some []) (some [])

/-- An extraction whose location carries the two-token commune value
`"Paris, Lyon"`. -/
def c9Extraction : Extraction :=
  { localisation := { present := true, code_postal := none, departement := none,
                      region := none, commune := some "Paris, Lyon" },
    activite := { present := false, libelle_secteur := none, activite_entreprise := none },
    taille_entreprise := { present := false, tranche_effectif := [], acronyme := none },
    criteres_financiers := { present := false, ca_plus_recent := none,
                             resultat_net_plus_recent := none, rentabilite_plus_recente := none },
    criteres_juridiques := { present := false, categorie_juridique := none,
                             siege_entreprise := none, date_creation_entreprise := none,
                             capital := none, date_changement_dirigeant := none,
                             nombre_etablissements := none } }

/-- Witness for C9 (amended) on a concrete two-token bundle. -/
theorem c9_corrections_per_token_witness :
    (match_locations c9Matcher c9Extraction).2.length +
      duplicateTokenCount c9Matcher (collectLocationTokens c9Extraction.localisation)
        ⟨[], [], []⟩ =
    (collectLocationTokens c9Extraction.localisation).length :=
  c9_corrections_per_token c9Matcher c9Extraction rfl rfl rfl

/-- A matcher loaded with the single commune `Paris`, used for the C9
counterexample. -/
def c9DupMatcher : LocationMatcher := initLocationMatcher (some ["Paris"]) (some []) (some [])

/-- An extraction whose location repeats the same commune twice. -/
def c9DupExtraction : Extraction :=
  { localisation := { present := true, code_postal := none, departement := none,
                      region := none, commune := some "Paris, Paris" },
    activite := { present := false, libelle_secteur := none, activite_entreprise := none },
    taille_entreprise := { present := false, tranche_effectif := [], acronyme := none },
    criteres_financiers := { present := false, ca_plus_recent := none,
                             resultat_net_plus_recent := none, rentabilite_plus_recente := none },
    criteres_juridiques := { present := false, categorie_juridique := none,
                             siege_entreprise := none, date_creation_entreprise := none,
                             capital := none, date_changement_dirigeant := none,
                             nombre_etablissements := none } }

/-- Counterexample to C9 as stated: the commune value `"Paris, Paris"`
yields two comma-split tokens but only one correction record — the second
token resolves to a canonical value already accumulated and is dropped. -/
theorem c9_counterexample :
    (collectLocationTokens c9DupExtraction.localisation).length = 2 ∧
    (match_locations c9DupMatcher c9DupExtraction).2.length = 1 := by
  refine ⟨by decide, by with_unfolding_all decide⟩

/-!  ## Extraction normalizer (`services/extraction_service.py`)  -/

/-- `_normalize_extraction_result` from `extraction_service.py`: the
`activite` section has its `libelle_secteur` nulled when a NAF code is also
set, or re-matched through the sector matcher (threshold 0.5) otherwise;
the `criteres_juridiques` section has all six sub-fields nulled when its
`present` flag is false.  No other section is touched. -/
def normalizeExtractionResult (m : SectorMatcher) (e : Extraction) : Extraction :=
  { e with
      activite :=
        if e.activite.activite_entreprise.isSome && e.activite.libelle_secteur.isSome then
          { e.activite with libelle_secteur := none }
        else
          match e.activite.libelle_secteur with
          | some lib =>
            match smatch m lib (1 / 2) with
            | some matched => { e.activite with libelle_secteur := some matched }
            | none => e.activite
          | none => e.activite,
      criteres_juridiques :=
        if e.criteres_juridiques.present = false then
          { e.criteres_juridiques with
              categorie_juridique := none, siege_entreprise := none,
              date_creation_entreprise := none, capital := none,
              date_changement_dirigeant := none, nombre_etablissements := none }
        else e.criteres_juridiques }

/-- A sector matcher over an empty catalog (its content is irrelevant to
the sections C1 is about). -/
def c1Matcher : SectorMatcher := mkSectorMatcher []

/-- An extraction whose location section is absent yet still carries a
region value (as a raw model output may). -/
def c1Extraction : Extraction :=
  { localisation := { present := false, code_postal := none, departement := none,
                      region := some "Bretagne", commune := none },
    activite := { present := false, libelle_secteur := none, activite_entreprise := none },
    taille_entreprise := { present := false, tranche_effectif := [], acronyme := none },
    criteres_financiers := { present := false, ca_plus_recent := none,
                             resultat_net_plus_recent := none, rentabilite_plus_recente := none },
    criteres_juridiques := { present := false, categorie_juridique := some "SAS",
                             siege_entreprise := none, date_creation_entreprise := none,
                             capital := none, date_changement_dirigeant := none,
                             nombre_etablissements := none } }

/-- Counterexample to C1: on a bundle whose location section has
`present = false` but a non-null region, `_normalize_extraction_result`
leaves the region in place — the null-when-absent invariant is not
established for the localisation section (nor for activite, taille or
criteres_financiers; only criteres_juridiques is enforced). -/
theorem c1_counterexample :
    (normalizeExtractionResult c1Matcher c1Extraction).localisation.present = false ∧
    (normalizeExtractionResult c1Matcher c1Extraction).localisation.region = some "Bretagne" := by
  refine ⟨rfl, rfl⟩

/-- C1 (amended): `_normalize_extraction_result` enforces the
null-when-absent invariant only for the `criteres_juridiques` section —
when that section's `present` flag is false all six of its sub-fields are
nulled — while the localisation, taille_entreprise and criteres_financiers
sections pass through unchanged (and activite only ever has its
`libelle_secteur` rewritten). -/
theorem c1_normalization_scope (m : SectorMatcher) (e : Extraction)
    (h : e.criteres_juridiques.present = false) :
    (normalizeExtractionResult m e).criteres_juridiques.categorie_juridique = none ∧
    (normalizeExtractionResult m e).criteres_juridiques.siege_entreprise = none ∧
    (normalizeExtractionResult m e).criteres_juridiques.date_creation_entreprise = none ∧
    (normalizeExtractionResult m e).criteres_juridiques.capital = none ∧
    (normalizeExtractionResult m e).criteres_juridiques.date_changement_dirigeant = none ∧
    (normalizeExtractionResult m e).criteres_juridiques.nombre_etablissements = none ∧
    (normalizeExtractionResult m e).localisation = e.localisation ∧
    (normalizeExtractionResult m e).taille_entreprise = e.taille_entreprise ∧
    (normalizeExtractionResult m e).criteres_financiers = e.criteres_financiers ∧
    (normalizeExtractionResult m e).activite.present = e.activite.present ∧
    (normalizeExtractionResult m e).activite.activite_entreprise =
      e.activite.activite_entreprise := by
  unfold normalizeExtractionResult
  rw [h]
  refine ⟨rfl, rfl, rfl, rfl, rfl, rfl, rfl, rfl, rfl, ?_, ?_⟩ <;>
    · simp only []
      split
      · rfl
      · split <;> try rfl
        split <;> rfl

/-- Witness for C1 (amended) at a concrete bundle with an absent
`criteres_juridiques` section holding a stale category value. -/
theorem c1_normalization_scope_witness :
    (normalizeExtractionResult c1Matcher c1Extraction).criteres_juridiques.categorie_juridique =
      none ∧
    (normalizeExtractionResult c1Matcher c1Extraction).localisation =
      c1Extraction.localisation :=
  ⟨(c1_normalization_scope c1Matcher c1Extraction rfl).1,
   (c1_normalization_scope c1Matcher c1Extraction rfl).2.2.2.2.2.2.1⟩
